import Mathlib

/-
Verification of the Ozon parser (src/tools/ozon_parser/ozon_parser.py).

The Python module is shallowly embedded below:
  * the process-wide `random` module is modelled as an explicit draw stream
    (`RNG`) threaded through the generator; `random.choice` and
    `random.randint` are modelled by `py_choice` and `py_randint`, which
    always return a member of the list, respectively a value in the closed
    interval, for every stream;
  * `generate_random_fingerprint` (lines 84-162) becomes a pure function of
    the draw stream and of the answer returned by the external
    timezone-lookup capability `detect_timezone_by_ip`;
  * `OzonParser.parse_product` (lines 420-530) becomes a pure function of a
    `PageEnv` describing what the browser engine returns (navigation
    outcome, body texts over time, per-selector extraction results);
  * `OzonParser.stop` (lines 391-398) becomes a function recording which
    teardown steps run and whether an exception escapes.
All string classification uses a model of Python `str.lower` that covers the
ASCII and Cyrillic letters occurring in the challenge phrases, and a model of
the substring test `needle in hay`.
-/

set_option maxRecDepth 8000
set_option maxHeartbeats 1000000

/-- A draw stream standing for the state of the process-wide Mersenne
Twister in the `random` module.  Each primitive draw consumes one number. -/
structure RNG where
  stream : List Nat
deriving DecidableEq

def RNG.next (g : RNG) : Nat × RNG :=
  (g.stream.headD 0, ⟨g.stream.tail⟩)

/-- Model of `random.choice(xs)`: picks a list element selected by the next
draw.  The default `d` is never used when `xs` is nonempty, because the
index is reduced modulo the length. -/
def py_choice {α : Type} (d : α) (xs : List α) (g : RNG) : α × RNG :=
  ((xs.getD (g.next.1 % xs.length) d), g.next.2)

/-- Model of `random.randint(a, b)`: an integer in the closed interval
`[a, b]`, driven by the next draw. -/
def py_randint (a b : Nat) (g : RNG) : Nat × RNG :=
  (a + g.next.1 % (b + 1 - a), g.next.2)

/-- The Mersenne Twister state that `random.seed(seed)` installs is a pure
function of the seed alone; the induced draw stream is abstracted here. -/
def py_seed_state (seed : Int) : RNG :=
  ⟨[seed.natAbs, seed.natAbs + 1, seed.natAbs + 2, seed.natAbs + 3]⟩

/-- Model of `random.seed(seed)`: discards the previous generator state and
installs the state determined by the seed (lines 331-332). -/
def py_seed (seed : Int) (_g : RNG) : RNG := py_seed_state seed

/-! Data model of the generated fingerprint (the dict built at lines
137-162 of the source). -/

structure ScreenModel where
  width : Nat
  height : Nat
  avail_width : Nat
  avail_height : Nat
  color_depth : Nat
  pixel_depth : Nat
deriving DecidableEq

structure ViewportModel where
  width : Nat
  height : Nat
deriving DecidableEq

structure NavigatorModel where
  hardware_concurrency : Nat
  device_memory : Nat
  max_touch_points : Nat
  platform : String
  language : String
  languages : List String
  vendor : String
deriving DecidableEq

structure IdentityModel where
  user_agent : String
  screen : ScreenModel
  viewport : ViewportModel
  navigator : NavigatorModel
  timezone : String
  locale : String
deriving DecidableEq

/-- `USER_AGENTS` list, lines 49-66 of the source. -/
def USER_AGENTS : List String :=
  ["Mozilla/5.0 (Windows NT 10.0; Win64; x64) AppleWebKit/537.36 (KHTML, like Gecko) Chrome/120.0.0.0 Safari/537.36",
   "Mozilla/5.0 (Windows NT 10.0; Win64; x64) AppleWebKit/537.36 (KHTML, like Gecko) Chrome/119.0.0.0 Safari/537.36",
   "Mozilla/5.0 (Windows NT 10.0; Win64; x64) AppleWebKit/537.36 (KHTML, like Gecko) Chrome/118.0.0.0 Safari/537.36",
   "Mozilla/5.0 (Macintosh; Intel Mac OS X 10_15_7) AppleWebKit/537.36 (KHTML, like Gecko) Chrome/120.0.0.0 Safari/537.36",
   "Mozilla/5.0 (Macintosh; Intel Mac OS X 10_15_7) AppleWebKit/537.36 (KHTML, like Gecko) Chrome/119.0.0.0 Safari/537.36",
   "Mozilla/5.0 (Windows NT 10.0; Win64; x64) AppleWebKit/537.36 (KHTML, like Gecko) Chrome/118.0.0.0 Safari/537.36 OPR/104.0.0.0",
   "Mozilla/5.0 (Windows NT 10.0; Win64; x64) AppleWebKit/537.36 (KHTML, like Gecko) Chrome/119.0.0.0 Safari/537.36 OPR/105.0.0.0",
   "Mozilla/5.0 (Windows NT 10.0; Win64; x64) AppleWebKit/537.36 (KHTML, like Gecko) Chrome/120.0.0.0 Safari/537.36 Edg/120.0.0.0",
   "Mozilla/5.0 (Macintosh; Intel Mac OS X 10_15_7) AppleWebKit/537.36 (KHTML, like Gecko) Chrome/120.0.0.0 Safari/537.36 Edg/120.0.0.0",
   "Mozilla/5.0 (Windows NT 10.0; Win64; x64) AppleWebKit/537.36 (KHTML, like Gecko) Chrome/120.0.0.0 Safari/537.36 Brave/120.0.0.0",
   "Mozilla/5.0 (Windows NT 10.0; Win64; x64) AppleWebKit/537.36 (KHTML, like Gecko) Chrome/120.0.0.0 Safari/537.36 YaBrowser/24.1.0.0"]

/-- Substring test modelling the Python expression `needle in hay` on the
character lists of the two strings. -/
def is_sub_of (needle : List Char) : List Char → Bool
  | [] => needle.isEmpty
  | c :: rest => needle.isPrefixOf (c :: rest) || is_sub_of needle rest

def str_contains (hay needle : String) : Bool :=
  is_sub_of needle.data hay.data

/-- Line 94: `is_russian_tz = 'Moscow' in timezone or 'Kaliningrad' in
timezone or 'Samara' in timezone or 'Yekaterinburg' in timezone`. -/
def is_russian_tz (timezone : String) : Bool :=
  str_contains timezone "Moscow" || str_contains timezone "Kaliningrad" ||
    str_contains timezone "Samara" || str_contains timezone "Yekaterinburg"

/-- Lines 96-100: the platform list is weighted toward `Win32` for Russian
timezones and unweighted otherwise. -/
def platforms_for (is_russian : Bool) : List String :=
  if is_russian then ["Win32", "Win32", "Win32", "MacIntel", "Linux x86_64"]
  else ["Win32", "MacIntel", "Linux x86_64"]

/-- `resolutions` list, lines 106-116. -/
def resolutions : List (Nat × Nat) :=
  [(1920, 1080), (1920, 1080), (1920, 1080), (1920, 1080), (2560, 1440),
   (1366, 768), (1536, 864), (1440, 900), (1680, 1050)]

/-- `core_counts` list, line 119. -/
def core_counts : List Nat := [4, 6, 8, 8, 12, 16]

/-- `memory_map` dict, line 122, as an association list. -/
def memory_map : List (Nat × Nat) := [(4, 8), (6, 16), (8, 16), (12, 32), (16, 32)]

/-- Shallow embedding of `generate_random_fingerprint` (lines 84-162).
`tz_lookup` is the string returned by the external IP-based timezone
capability (`detect_timezone_by_ip`); when `detect_tz` is false the source
uses the constant `Europe/Moscow` instead.  Draws happen in source order:
cores (line 123), resolution (125), `randint(0,100)` (126),
`randint(40,150)` (127), platform (129), user agent (138), and, only when
the platform is not `Win32`, touch points (154).  All subtractions stay in
range because every height in `resolutions` exceeds 150 and every width
exceeds 100. -/
def generate_random_fingerprint (detect_tz : Bool) (tz_lookup : String) (g : RNG) :
    IdentityModel × RNG :=
  let timezone0 := if detect_tz then tz_lookup else "Europe/Moscow"
  let is_russian := is_russian_tz timezone0
  let c1 := py_choice 0 core_counts g
  let cores := c1.1
  let c2 := py_choice (1920, 1080) resolutions c1.2
  let width := c2.1.1
  let height := c2.1.2
  let r3 := py_randint 0 100 c2.2
  let avail_width := width - r3.1
  let r4 := py_randint 40 150 r3.2
  let avail_height := height - r4.1
  let c5 := py_choice "Win32" (platforms_for is_russian) r4.2
  let platform := c5.1
  let timezone := if platform == "MacIntel" && is_russian then "Europe/Moscow" else timezone0
  let c6 := py_choice "" USER_AGENTS c5.2
  let c7 := if platform == "Win32" then ((0 : Nat), c6.2) else py_choice 0 [0, 5] c6.2
  (⟨c6.1,
    ⟨width, height, avail_width, avail_height, 24, 24⟩,
    ⟨width, height - 40⟩,
    ⟨cores, (memory_map.lookup cores).getD 0, c7.1, platform, "ru-RU",
     ["ru-RU", "ru", "en-US", "en"], "Google Inc."⟩,
    timezone, "ru-RU"⟩, c7.2)

/-- The fixed cores-to-memory map named by the specification. -/
def memory_for_cores : Nat → Nat
  | 4 => 8
  | 6 => 16
  | 8 => 16
  | 12 => 32
  | 16 => 32
  | _ => 0

/-- The timezone correction of lines 131-135: a `MacIntel` platform drawn
together with a Russian zone forces `Europe/Moscow`; otherwise the drawn
timezone is kept. -/
def corrected_timezone (platform timezone0 : String) (is_russian : Bool) : String :=
  if platform == "MacIntel" && is_russian then "Europe/Moscow" else timezone0

/-- Model of Python `str.lower` restricted to the alphabets appearing in
the module: ASCII letters and the Cyrillic letters of the challenge
phrases. -/
def py_char_lower (c : Char) : Char :=
  if 'A' ≤ c && c ≤ 'Z' then Char.ofNat (c.toNat + 32)
  else if 'А' ≤ c && c ≤ 'Я' then Char.ofNat (c.toNat + 32)
  else if c = 'Ё' then 'ё'
  else c

def py_lower (s : String) : String :=
  ⟨s.data.map py_char_lower⟩

/-- `captcha_indicators`, lines 443-452 of the source. -/
def captcha_indicators : List String :=
  ["доступ ограничен",
   "captcha",
   "подтвердите, что вы не бот",
   "подтвердите что вы не бот",
   "передвиньте ползунок",
   "verify you are human",
   "human verification",
   "challenge"]

/-- Line 454: `any(indicator in page_text.lower() for indicator in
captcha_indicators)`.  The same test is reused as `still_captcha` inside
the poll loop (line 469). -/
def detected_captcha (text : String) : Bool :=
  captcha_indicators.any (fun ind => str_contains (py_lower text) ind)

/-- Line 456: the entry classification `detected_captcha or len(page_text) < 200`. -/
def entry_challenged (text : String) : Bool :=
  detected_captcha text || decide (text.length < 200)

/-- Line 471: the exit test of one poll tick,
`not still_captcha and len(current_text) > 500`. -/
def tick_exits (text : String) : Bool :=
  !detected_captcha text && decide (500 < text.length)

/-- Outcome of the CAPTCHA poll loop of lines 464-481: how many one-second
ticks ran, whether the loop exited through the success break, and whether
the extra 2000 ms settle pause of line 473 was executed. -/
structure PollResult where
  ticks : Nat
  resolved : Bool
  extra_settle : Bool
deriving DecidableEq

/-- One iteration `i` of `for i in range(120)` with `rem` iterations left
(`rem + i = 120` at every call from `poll_loop`).  Each iteration first
sleeps one second (the tick), reads the body text, breaks with the extra
settle pause when the exit test passes, and returns the timeout error when
`i >= 119`.  The `rem = 0` base case is unreachable from `poll_loop`. -/
def poll_go (poll_text : Nat → String) : Nat → Nat → PollResult
  | 0, i => ⟨i, false, false⟩
  | rem + 1, i =>
    if tick_exits (poll_text i) then ⟨i + 1, true, true⟩
    else if 119 ≤ i then ⟨i + 1, false, false⟩
    else poll_go poll_text rem (i + 1)

def poll_loop (poll_text : Nat → String) : PollResult :=
  poll_go poll_text 120 0

/-- Outcome of `self.page.goto(...)` at line 434: a response status, the
engine-level `PlaywrightTimeoutError`, or any other exception with its
message. -/
inductive GotoResult
  | ok (status : Nat)
  | timeout
  | fail (msg : String)
deriving DecidableEq

/-- The `price_number` field: absent, an integer, or the `ValueError` that
`int()` would raise on a non-numeric remainder. -/
inductive PriceOutcome
  | unset
  | value (n : Nat)
  | error
deriving DecidableEq

/-- ASCII model of the regex class `\s` used by `[\d\s]+` at line 520. -/
def is_py_space (c : Char) : Bool :=
  c == ' ' || c == '\t' || c == '\n' || c == '\r' || c == '\x0b' || c == '\x0c'

/-- ASCII model of one character of the regex class `[\d\s]`. -/
def is_digit_or_space (c : Char) : Bool :=
  c.isDigit || is_py_space c

/-- Model of `re.search(r'[\d\s]+', s)`: the first maximal run of
digit-or-space characters, or `none` when the string has no such
character. -/
def first_digit_space_run : List Char → Option (List Char)
  | [] => none
  | c :: rest =>
    if is_digit_or_space c then some (c :: rest.takeWhile is_digit_or_space)
    else first_digit_space_run rest

def digits_to_nat (cs : List Char) : Nat :=
  cs.foldl (fun acc c => 10 * acc + (c.toNat - 48)) 0

/-- Model of Python `int(str)`: surrounding whitespace is tolerated, any
other non-digit character raises `ValueError` (signs and underscores do not
occur in the strings this module feeds to `int`). -/
def py_int (cs : List Char) : PriceOutcome :=
  let t := ((cs.dropWhile is_py_space).reverse.dropWhile is_py_space).reverse
  if !t.isEmpty && t.all Char.isDigit then .value (digits_to_nat t) else .error

/-- Lines 518-522: when the extracted price text is non-empty, search for
the first digit-or-space run, remove the plain spaces (`replace(' ', '')`)
and apply `int`. -/
def price_number_of (price : String) : PriceOutcome :=
  if price.data.isEmpty then .unset
  else
    match first_digit_space_run price.data with
    | none => .unset
    | some run => py_int (run.filter (fun c => c != ' '))

/-- Modelled from the spec words, for comparison with `price_number_of`:
an optional numeric price derived by stripping non-digit and non-space
characters from the whole text and parsing the remainder (spaces removed)
as an integer. -/
def spec_price_number (price : String) : Option Nat :=
  let kept := price.data.filter is_digit_or_space
  let ds := kept.filter (fun c => c != ' ')
  if !ds.isEmpty && ds.all Char.isDigit then some (digits_to_nat ds) else none

/-- What the browser engine returns during one `parse_product` call: the
navigation outcome, the body text read after the settle delay, the body
texts read on each poll tick, and the per-selector extraction results of
lines 504-514. -/
structure PageEnv where
  goto_result : GotoResult
  initial_text : String
  poll_text : Nat → String
  title : String
  price : String
  old_price : String
  discount : String
  rating : String
  reviews : String
  brand : String
  seller : String
  description : String

/-- The data dict assembled at lines 504-522. -/
structure ProductData where
  url : String
  title : String
  price : String
  old_price : String
  discount : String
  rating : String
  reviews : String
  brand : String
  seller : String
  description : String
  price_number : PriceOutcome
deriving DecidableEq

inductive ParseResult
  | errorResult (msg : String)
  | ok (d : ProductData)
deriving DecidableEq

def extract_data (env : PageEnv) (url : String) : ProductData :=
  ⟨url, env.title, env.price, env.old_price, env.discount, env.rating,
   env.reviews, env.brand, env.seller, env.description,
   price_number_of env.price⟩

/-- Shallow embedding of `OzonParser.parse_product` (lines 420-530).  A
`PlaywrightTimeoutError` from `goto` is caught at line 498 with only a log
line, so control falls through to the extraction at line 503; any other
exception returns the error dict of line 501.  On a successful response the
body text is classified (line 456); a challenged page enters the 120-tick
poll loop, whose timeout produces the error dict of line 481. -/
def parse_product (env : PageEnv) (url : String) : ParseResult :=
  match env.goto_result with
  | .fail msg => .errorResult ("Не удалось загрузить страницу: " ++ msg)
  | .timeout => .ok (extract_data env url)
  | .ok _ =>
    if entry_challenged env.initial_text then
      if (poll_loop env.poll_text).resolved then .ok (extract_data env url)
      else .errorResult "CAPTCHA timeout - пользователь не прошёл проверку"
    else .ok (extract_data env url)

/-- The three statements of `OzonParser.stop` (lines 391-398). -/
inductive TeardownStep
  | close_page
  | close_browser
  | stop_playwright
deriving DecidableEq

/-- One guarded close call `if resource: resource.close()`: attempted only
when the resource is live, and raising exactly when the close call
raises. -/
def attempt_close (live raises : Bool) (step : TeardownStep) :
    List TeardownStep × Bool :=
  if live then ([step], raises) else ([], false)

/-- Shallow embedding of `OzonParser.stop`: three sequential guarded close
statements with no exception handler, so an exception propagates and the
remaining statements do not run.  Returns the steps attempted, in order,
and whether an exception escaped. -/
def stop_model (page_live browser_live playwright_live page_raises browser_raises
    playwright_raises : Bool) : List TeardownStep × Bool :=
  let s1 := attempt_close page_live page_raises .close_page
  if s1.2 then (s1.1, true)
  else
    let s2 := attempt_close browser_live browser_raises .close_browser
    if s2.2 then (s1.1 ++ s2.1, true)
    else
      let s3 := attempt_close playwright_live playwright_raises .stop_playwright
      (s1.1 ++ s2.1 ++ s3.1, s3.2)

/-- A page environment whose navigation times out; used to exhibit the
fall-through-to-extraction behaviour. -/
def env_timeout : PageEnv :=
  { goto_result := .timeout, initial_text := "", poll_text := fun _ => "",
    title := "Футболка", price := "", old_price := "", discount := "",
    rating := "", reviews := "", brand := "", seller := "", description := "" }

/-- A page environment that is challenged on entry and on every poll tick. -/
def env_challenged : PageEnv :=
  { goto_result := .ok 200, initial_text := "captcha",
    poll_text := fun _ => "captcha",
    title := "", price := "", old_price := "", discount := "",
    rating := "", reviews := "", brand := "", seller := "", description := "" }

/-- A clean page environment whose extracted price text is `12 345 ₽`. -/
def env_price : PageEnv :=
  { goto_result := .ok 200,
    initial_text := String.mk (List.replicate 600 'a'),
    poll_text := fun _ => "",
    title := "Футболка", price := "12 345 ₽", old_price := "", discount := "",
    rating := "", reviews := "", brand := "", seller := "", description := "" }

lemma memory_lookup_spec : ∀ m, m < 6 →
    (memory_map.lookup (core_counts.getD m 0)).getD 0
      = memory_for_cores (core_counts.getD m 0) := by decide

lemma res_height_ge : ∀ m, m < 9 → 768 ≤ (resolutions.getD m (1920, 1080)).2 := by decide

lemma plat_mem_of_lt5 : ∀ m, m < 5 →
    (platforms_for true).getD m "Win32" ∈ platforms_for true := by decide

lemma plat_mem_of_lt3 : ∀ m, m < 3 →
    (platforms_for false).getD m "Win32" ∈ platforms_for false := by decide

lemma fp_timezone_eq (tz : String) (g : RNG) :
    (generate_random_fingerprint true tz g).1.timezone
      = corrected_timezone
          (generate_random_fingerprint true tz g).1.navigator.platform
          tz (is_russian_tz tz) := rfl

lemma fp_platform_eq (tz : String) (g : RNG) :
    (generate_random_fingerprint true tz g).1.navigator.platform
      = (platforms_for (is_russian_tz tz)).getD
          (g.stream.tail.tail.tail.tail.headD 0
            % (platforms_for (is_russian_tz tz)).length) "Win32" := rfl

/-- C1: every fingerprint produced by `generate_random_fingerprint` — for any
draw stream and any timezone answer — satisfies the consistency invariant:
`device_memory` is the fixed map (4 to 8, 6 to 16, 8 to 16, 12 to 32,
16 to 32) applied to `hardware_concurrency`; `avail_width ≤ width`;
`avail_height < height` with the difference between 40 and 150;
`viewport.width = screen.width`; and `viewport.height = screen.height - 40`. -/
theorem fingerprint_consistency_C1 (d : Bool) (tz : String) (g : RNG) :
    (generate_random_fingerprint d tz g).1.navigator.device_memory
        = memory_for_cores (generate_random_fingerprint d tz g).1.navigator.hardware_concurrency
      ∧ (generate_random_fingerprint d tz g).1.screen.avail_width
          ≤ (generate_random_fingerprint d tz g).1.screen.width
      ∧ (generate_random_fingerprint d tz g).1.screen.avail_height
          < (generate_random_fingerprint d tz g).1.screen.height
      ∧ 40 ≤ (generate_random_fingerprint d tz g).1.screen.height
              - (generate_random_fingerprint d tz g).1.screen.avail_height
      ∧ (generate_random_fingerprint d tz g).1.screen.height
          - (generate_random_fingerprint d tz g).1.screen.avail_height ≤ 150
      ∧ (generate_random_fingerprint d tz g).1.viewport.width
          = (generate_random_fingerprint d tz g).1.screen.width
      ∧ (generate_random_fingerprint d tz g).1.viewport.height
          = (generate_random_fingerprint d tz g).1.screen.height - 40 := by
  have h6 : g.stream.headD 0 % core_counts.length < 6 := by
    rw [show core_counts.length = 6 from rfl]; exact Nat.mod_lt _ (by norm_num)
  have h9 : g.stream.tail.headD 0 % resolutions.length < 9 := by
    rw [show resolutions.length = 9 from rfl]; exact Nat.mod_lt _ (by norm_num)
  have hmem := memory_lookup_spec _ h6
  have hh := res_height_ge _ h9
  simp only [generate_random_fingerprint, py_choice, py_randint, RNG.next]
  refine ⟨?_, ?_, ?_, ?_, ?_, ?_, ?_⟩ <;> first | exact hmem | trivial | omega

/-- C5: re-seeding with the same seed and using the same timezone answer
reproduces the identical IdentityModel, whatever the generator state of
either run was beforehand. -/
theorem seed_determinism_C5 (seed : Int) (g₁ g₂ : RNG) (d : Bool) (tz : String) :
    (generate_random_fingerprint d tz (py_seed seed g₁)).1
      = (generate_random_fingerprint d tz (py_seed seed g₂)).1 := rfl

/-- C9: when the drawn timezone is a Russian zone and the drawn platform is
`MacIntel`, the final timezone is forced to `Europe/Moscow`; and for a
Russian zone the platform is drawn from the Win32-weighted five-element
list (three `Win32` entries, every other platform appearing once). -/
theorem russian_fingerprint_consistency_C9 (tz : String) (g : RNG) :
    (is_russian_tz tz = true →
      (generate_random_fingerprint true tz g).1.navigator.platform = "MacIntel" →
      (generate_random_fingerprint true tz g).1.timezone = "Europe/Moscow")
  ∧ (is_russian_tz tz = true →
      (generate_random_fingerprint true tz g).1.navigator.platform ∈ platforms_for true
      ∧ (platforms_for true).count "Win32" = 3
      ∧ (platforms_for true).length = 5
      ∧ ∀ p ∈ platforms_for true, p ≠ "Win32" → (platforms_for true).count p = 1) := by
  constructor
  · intro hru hplat
    rw [fp_timezone_eq, hplat, hru]
    rfl
  · intro hru
    refine ⟨?_, by decide, by decide, by decide⟩
    rw [fp_platform_eq, hru]
    apply plat_mem_of_lt5
    rw [show (platforms_for true).length = 5 from rfl]
    exact Nat.mod_lt _ (by norm_num)

/-- C9 witness: with timezone answer `Europe/Samara` (Russian) and a draw
stream selecting `MacIntel`, the final timezone is `Europe/Moscow`. -/
theorem russian_fingerprint_consistency_C9_witness :
    (generate_random_fingerprint true "Europe/Samara" ⟨[0, 0, 0, 0, 3]⟩).1.timezone
      = "Europe/Moscow" :=
  (russian_fingerprint_consistency_C9 "Europe/Samara" ⟨[0, 0, 0, 0, 3]⟩).1
    (by decide) (by decide)

lemma is_sub_of_iff (n : List Char) : ∀ h : List Char, is_sub_of n h = true ↔ n <:+: h := by
  intro h
  induction h with
  | nil => simp [is_sub_of, List.isEmpty_iff, List.infix_nil]
  | cons c t ih => simp [is_sub_of, ih, List.infix_cons_iff]

/-- C10: a timezone string counts as Russian exactly when it contains one of
the four substrings `Moscow`, `Kaliningrad`, `Samara`, `Yekaterinburg`;
`Asia/Novosibirsk` is not Russian; and for every non-Russian timezone the
unweighted three-element platform list is used and the timezone is left
unchanged (no MacIntel correction). -/
theorem russian_tz_criterion_C10 :
    (∀ tz : String, is_russian_tz tz = true ↔
      ("Moscow".data <:+: tz.data ∨ "Kaliningrad".data <:+: tz.data ∨
       "Samara".data <:+: tz.data ∨ "Yekaterinburg".data <:+: tz.data))
  ∧ is_russian_tz "Asia/Novosibirsk" = false
  ∧ (∀ tz g, is_russian_tz tz = false →
      (generate_random_fingerprint true tz g).1.timezone = tz
      ∧ (generate_random_fingerprint true tz g).1.navigator.platform
          ∈ platforms_for false) := by
  refine ⟨?_, by decide, ?_⟩
  · intro tz
    simp [is_russian_tz, str_contains, is_sub_of_iff, or_assoc]
  · intro tz g hru
    constructor
    · rw [fp_timezone_eq, hru]
      simp [corrected_timezone]
    · rw [fp_platform_eq, hru]
      apply plat_mem_of_lt3
      rw [show (platforms_for false).length = 3 from rfl]
      exact Nat.mod_lt _ (by norm_num)

/-- C10 witness: `Asia/Novosibirsk` is not treated as Russian, so the final
timezone is left exactly as drawn. -/
theorem russian_tz_criterion_C10_witness :
    (generate_random_fingerprint true "Asia/Novosibirsk" ⟨[]⟩).1.timezone
      = "Asia/Novosibirsk" :=
  (russian_tz_criterion_C10.2.2 "Asia/Novosibirsk" ⟨[]⟩ (by decide)).1

/-- C2: after the settle delay the body text is classified as challenged
exactly when its lower-cased form contains one of the fixed challenge
phrases or its length is below 200; 199 characters of clean text are
challenged, 200 are not, and text whose lower-cased form contains
`captcha` is challenged at any length. -/
theorem challenge_entry_classification_C2 :
    (∀ text : String, entry_challenged text = true ↔
      ((∃ ind, ind ∈ captcha_indicators ∧ ind.data <:+: (py_lower text).data)
        ∨ text.length < 200))
  ∧ entry_challenged (String.mk (List.replicate 199 'a')) = true
  ∧ entry_challenged (String.mk (List.replicate 200 'a')) = false
  ∧ (∀ text : String, str_contains (py_lower text) "captcha" = true →
      entry_challenged text = true) := by
  refine ⟨?_, by decide, by decide, ?_⟩
  · intro text
    simp [entry_challenged, detected_captcha, str_contains, is_sub_of_iff]
  · intro text h
    have hmem : "captcha" ∈ captcha_indicators := by decide
    have hdet : detected_captcha text = true := by
      unfold detected_captcha
      exact List.any_eq_true.mpr ⟨"captcha", hmem, h⟩
    simp [entry_challenged, hdet]

/-- C2 witness: a short Russian interstitial text containing `CAPTCHA` is
classified as challenged. -/
theorem challenge_entry_classification_C2_witness :
    entry_challenged "Подтвердите, что вы не бот - CAPTCHA" = true :=
  challenge_entry_classification_C2.2.2.2 "Подтвердите, что вы не бот - CAPTCHA"
    (by decide)

lemma poll_go_ticks_le (pt : Nat → String) :
    ∀ rem i, (poll_go pt rem i).ticks ≤ i + rem := by
  intro rem
  induction rem with
  | zero => intro i; simp [poll_go]
  | succ n ih =>
    intro i
    simp only [poll_go]
    split
    · dsimp only; omega
    · split
      · dsimp only; omega
      · have := ih (i + 1)
        omega

lemma poll_go_timeout (pt : Nat → String)
    (hall : ∀ j, j < 120 → detected_captcha (pt j) = true) :
    ∀ rem i, i + rem = 120 → 0 < rem → poll_go pt rem i = ⟨120, false, false⟩ := by
  intro rem
  induction rem with
  | zero => intro i _ h0; omega
  | succ n ih =>
    intro i hsum _
    have hi : i < 120 := by omega
    have hexit : tick_exits (pt i) = false := by
      have hd := hall i hi
      simp [tick_exits, hd]
    by_cases h119 : 119 ≤ i
    · have hi119 : i = 119 := by omega
      subst hi119
      simp [poll_go, hexit]
    · have hn : 0 < n := by omega
      simp only [poll_go, hexit]
      simp [h119]
      exact ih (i + 1) (by omega) hn

/-- C6: the challenge poll loop runs at most 120 one-second ticks; when all
120 ticks remain classified as challenged, `parse_product` returns the
CAPTCHA-timeout error result, and a 121st tick never occurs. -/
theorem challenge_timeout_ceiling_C6 :
    (∀ pt : Nat → String, (poll_loop pt).ticks ≤ 120)
  ∧ (∀ pt : Nat → String, (∀ j, j < 120 → detected_captcha (pt j) = true) →
      poll_loop pt = ⟨120, false, false⟩)
  ∧ (∀ (env : PageEnv) (url : String) (status : Nat),
      env.goto_result = .ok status →
      entry_challenged env.initial_text = true →
      (∀ j, j < 120 → detected_captcha (env.poll_text j) = true) →
      parse_product env url
        = .errorResult "CAPTCHA timeout - пользователь не прошёл проверку") := by
  refine ⟨?_, ?_, ?_⟩
  · intro pt
    have := poll_go_ticks_le pt 120 0
    simpa [poll_loop] using this
  · intro pt hall
    exact poll_go_timeout pt hall 120 0 rfl (by norm_num)
  · intro env url status hgoto hchal hall
    have hpoll : poll_loop env.poll_text = ⟨120, false, false⟩ :=
      poll_go_timeout env.poll_text hall 120 0 rfl (by norm_num)
    unfold parse_product
    rw [hgoto]
    simp [hchal, hpoll]

/-- C6 witness: a page challenged on entry and on every tick makes
`parse_product` return the CAPTCHA-timeout error result. -/
theorem challenge_timeout_ceiling_C6_witness :
    parse_product env_challenged "https://www.ozon.ru/product/x"
      = .errorResult "CAPTCHA timeout - пользователь не прошёл проверку" :=
  challenge_timeout_ceiling_C6.2.2 env_challenged "https://www.ozon.ru/product/x" 200
    rfl (by decide) (fun j _ => (by decide : detected_captcha "captcha" = true))

lemma poll_go_resolved_settle (pt : Nat → String) :
    ∀ rem i, (poll_go pt rem i).resolved = true →
      (poll_go pt rem i).extra_settle = true := by
  intro rem
  induction rem with
  | zero => intro i h; exact Bool.noConfusion h
  | succ n ih =>
    intro i
    simp only [poll_go]
    split
    · intro _; rfl
    · split
      · intro h; exact Bool.noConfusion h
      · exact ih (i + 1)

/-- C7: a poll tick whose text contains no challenge phrase exits the
challenged state exactly when the text length exceeds 500 characters; 480
clean characters stay challenged, 501 clean characters resolve on the
first tick, and the exit path always performs the extra settle pause. -/
theorem challenge_exit_hysteresis_C7 :
    (∀ text : String, detected_captcha text = false →
      (tick_exits text = true ↔ 500 < text.length))
  ∧ tick_exits (String.mk (List.replicate 480 'x')) = false
  ∧ tick_exits (String.mk (List.replicate 501 'x')) = true
  ∧ (∀ pt : Nat → String, (poll_loop pt).resolved = true →
      (poll_loop pt).extra_settle = true)
  ∧ poll_loop (fun _ => String.mk (List.replicate 501 'x')) = ⟨1, true, true⟩ := by
  refine ⟨?_, by decide, by decide, ?_, by decide⟩
  · intro text h
    simp [tick_exits, h]
  · intro pt
    exact poll_go_resolved_settle pt 120 0

/-- C7 witness: 501 clean characters pass the exit test. -/
theorem challenge_exit_hysteresis_C7_witness :
    tick_exits (String.mk (List.replicate 501 'x')) = true :=
  (challenge_exit_hysteresis_C7.1 (String.mk (List.replicate 501 'x'))
    (by decide)).mpr (by decide)

/-- C3 counterexample: with a navigation timeout `parse_product` does not
return an error-carrying result; it falls through to extraction and returns
the extracted data. -/
theorem nav_timeout_counterexample_C3 :
    parse_product env_timeout "https://www.ozon.ru/product/x"
      = .ok ⟨"https://www.ozon.ru/product/x", "Футболка", "", "", "", "", "",
             "", "", "", .unset⟩ := rfl

/-- C3 amended: an engine navigation timeout is caught with only a log line
and `parse_product` proceeds to extraction, returning the extracted data
with no error field; only a non-timeout navigation exception produces the
structured error result. -/
theorem nav_timeout_behavior_C3 :
    (∀ (env : PageEnv) (url : String), env.goto_result = .timeout →
      parse_product env url = .ok (extract_data env url))
  ∧ (∀ (env : PageEnv) (url msg : String), env.goto_result = .fail msg →
      parse_product env url
        = .errorResult ("Не удалось загрузить страницу: " ++ msg)) := by
  constructor
  · intro env url h
    unfold parse_product
    rw [h]
  · intro env url msg h
    unfold parse_product
    rw [h]

/-- C3 witness: the timeout environment takes the fall-through path. -/
theorem nav_timeout_behavior_C3_witness :
    parse_product env_timeout "https://www.ozon.ru/product/y"
      = .ok (extract_data env_timeout "https://www.ozon.ru/product/y") :=
  nav_timeout_behavior_C3.1 env_timeout "https://www.ozon.ru/product/y" rfl

/-- C4 counterexample: every resource is live and the page close raises; the
teardown attempts only the page close, so the live browser and driver are
never asked to close — an earlier failure does prevent the later steps. -/
theorem stop_teardown_counterexample_C4 :
    stop_model true true true true false false
      = ([TeardownStep.close_page], true) := by decide

/-- C4 amended: liveness is checked before each close and, when no close
call raises, exactly the live resources are released in order with no
exception escaping; but a failure raised by any earlier step aborts all
remaining steps (they are not attempted) and the exception escapes `stop`
— stated for a raise at each of the three positions with the earlier
steps succeeding — and dead resources are never asked to close. -/
theorem stop_teardown_C4 :
    (∀ p b w : Bool,
      (stop_model p b w false false false).1
        = (if p then [TeardownStep.close_page] else [])
          ++ (if b then [TeardownStep.close_browser] else [])
          ++ (if w then [TeardownStep.stop_playwright] else []))
  ∧ (∀ p b w : Bool, (stop_model p b w false false false).2 = false)
  ∧ (∀ b w bc wc : Bool,
      stop_model true b w true bc wc = ([TeardownStep.close_page], true))
  ∧ (∀ p w wc : Bool,
      stop_model p true w false true wc
        = ((if p then [TeardownStep.close_page] else [])
            ++ [TeardownStep.close_browser], true))
  ∧ (∀ p b : Bool,
      stop_model p b true false false true
        = ((if p then [TeardownStep.close_page] else [])
            ++ (if b then [TeardownStep.close_browser] else [])
            ++ [TeardownStep.stop_playwright], true))
  ∧ (∀ pc bc wc : Bool,
      stop_model false false false pc bc wc = ([], false)) := by
  refine ⟨?_, ?_, ?_, ?_, ?_, ?_⟩ <;> decide

/-- C8 counterexample: on the price text `1a2` the code parses only the
first digit run and yields 1, while stripping every non-digit/space
character from the whole text, as the claim states, would yield 12. -/
theorem price_rule_counterexample_C8 :
    price_number_of "1a2" = .value 1 ∧ spec_price_number "1a2" = some 12 := by
  decide

lemma digit_not_py_space (c : Char) (h : c.isDigit = true) :
    is_py_space c = false := by
  cases hs : is_py_space c
  · rfl
  · exfalso
    simp only [is_py_space, Bool.or_eq_true, beq_iff_eq, or_assoc] at hs
    rcases hs with rfl | rfl | rfl | rfl | rfl | rfl <;> exact absurd h (by decide)

lemma digit_or_blank_char (c : Char) (h : (c.isDigit || c == ' ') = true) :
    is_digit_or_space c = true := by
  rcases Bool.or_eq_true_iff.mp h with hd | hb
  · simp [is_digit_or_space, hd]
  · simp [is_digit_or_space, is_py_space, hb]

lemma digit_space_only_price (s : String)
    (hall : s.data.all (fun c => c.isDigit || c == ' ') = true)
    (hdig : s.data.any Char.isDigit = true) :
    price_number_of s = .value (digits_to_nat (s.data.filter Char.isDigit))
    ∧ spec_price_number s = some (digits_to_nat (s.data.filter Char.isDigit)) := by
  obtain ⟨x, hxmem, hxdig⟩ := List.any_eq_true.mp hdig
  have hmemall := List.all_eq_true.mp hall
  have hne : s.data ≠ [] := List.ne_nil_of_mem hxmem
  have hds_all : s.data.all is_digit_or_space = true :=
    List.all_eq_true.mpr fun c hc => digit_or_blank_char c (hmemall c hc)
  -- the digit part of the text, shared by both sides
  have hfilter : s.data.filter (fun c => c != ' ') = s.data.filter Char.isDigit := by
    apply List.filter_congr
    intro c hc
    rcases Bool.or_eq_true_iff.mp (hmemall c hc) with hd | hb
    · simp [hd]
      intro hcontra
      subst hcontra
      exact absurd hd (by decide)
    · have : c = ' ' := by simpa using hb
      subst this
      decide
  have hdigits_all : (s.data.filter Char.isDigit).all Char.isDigit = true :=
    List.all_eq_true.mpr fun c hc => (List.mem_filter.mp hc).2
  have hdigits_ne : s.data.filter Char.isDigit ≠ [] :=
    List.ne_nil_of_mem (List.mem_filter.mpr ⟨hxmem, hxdig⟩)
  have hpyint : py_int (s.data.filter Char.isDigit)
      = .value (digits_to_nat (s.data.filter Char.isDigit)) := by
    have hnospace : ∀ (l : List Char), l.all Char.isDigit = true →
        l.dropWhile is_py_space = l := by
      intro l hl
      rcases l with _ | ⟨c, t⟩
      · rfl
      · rw [List.dropWhile_cons]
        have hc : c.isDigit = true := List.all_eq_true.mp hl c (by simp)
        simp [digit_not_py_space c hc]
    unfold py_int
    rw [hnospace _ hdigits_all]
    rw [hnospace _ (by simp [hdigits_all])]
    rw [List.reverse_reverse]
    simp [hdigits_all, List.isEmpty_iff, hdigits_ne]
  constructor
  · unfold price_number_of
    rw [if_neg (by simpa [List.isEmpty_iff] using hne)]
    obtain ⟨c, t, hct⟩ := List.exists_cons_of_ne_nil hne
    have hrun : first_digit_space_run s.data = some s.data := by
      rw [hct, first_digit_space_run]
      have hc : is_digit_or_space c = true :=
        digit_or_blank_char c (hmemall c (by rw [hct]; simp))
      rw [if_pos hc]
      have ht : t.takeWhile is_digit_or_space = t := by
        apply List.takeWhile_eq_self_iff.mpr
        intro y hy
        exact digit_or_blank_char y (hmemall y (by rw [hct]; simp [hy]))
      rw [ht]
    rw [hrun]
    dsimp only
    rw [hfilter, hpyint]
  · unfold spec_price_number
    have hkept : s.data.filter is_digit_or_space = s.data :=
      List.filter_eq_self.mpr fun a ha => List.all_eq_true.mp hds_all a ha
    dsimp only
    rw [hkept, hfilter]
    simp [hdigits_all, List.isEmpty_iff, hdigits_ne]

/-- C8 amended: the numeric price is derived from the first maximal
digit-or-space run of the price text, with the spaces removed, parsed as an
integer; on the scenario text `12 345 ₽` the full extraction yields 12345,
and on any text made only of digits and spaces the code agrees with the
spec rule of stripping all other characters. -/
theorem price_extraction_C8 :
    (∀ (env : PageEnv) (url : String), env.price = "12 345 ₽" →
      (extract_data env url).price_number = .value 12345)
  ∧ spec_price_number "12 345 ₽" = some 12345
  ∧ (∀ s : String, s.data.all (fun c => c.isDigit || c == ' ') = true →
      s.data.any Char.isDigit = true →
      price_number_of s = .value (digits_to_nat (s.data.filter Char.isDigit))
      ∧ spec_price_number s = some (digits_to_nat (s.data.filter Char.isDigit))) := by
  refine ⟨?_, by decide, ?_⟩
  · intro env url h
    show price_number_of env.price = PriceOutcome.value 12345
    rw [h]
    decide
  · intro s hall hdig
    exact digit_space_only_price s hall hdig

/-- C8 witness: the environment extracting price text `12 345 ₽` produces
the numeric price 12345. -/
theorem price_extraction_C8_witness :
    (extract_data env_price "https://www.ozon.ru/product/x").price_number
      = .value 12345 :=
  price_extraction_C8.1 env_price "https://www.ozon.ru/product/x" rfl
